import Mathlib

set_option maxRecDepth 100000

/-!
Verification development for the ingestion-to-context dispatch pipeline of
`ai_fyp.py` (an interactive data-insights assistant built on a dataframe
library, a PDF text extractor, a charting engine and an LLM completion
service).

The Python source is shallowly embedded: pure string assembly (the prompt
templates) becomes Lean functions on a `Table` record; Python string slicing
`s[:n]` becomes `pySlice`; the stateful UI branches (PDF upload handling, the
profile-report branch, the question tab) become explicit step functions whose
results record what was displayed, whether an error was shown, which prompts
were built and how many LLM calls were issued.  Python truthiness of optional
strings (`None` and `""` are falsy) is modelled by `pyTruthy`.

Cell values of a dataframe are kept as their Python `repr` rendering (a
`String`), since the prompts only ever embed the `repr` of rows/dicts.
-/

/-- Python string slicing `s[:n]`: the first `n` characters. -/
def pySlice (s : String) (n : Nat) : String := ⟨s.data.take n⟩

/-- Python `repr` of a simple string: wrapped in single quotes. -/
def pyStrRepr (s : String) : String := "\x27" ++ s ++ "\x27"

/-- Python `repr` of a list, given the already-rendered elements. -/
def pyListRepr (xs : List String) : String :=
  "[" ++ String.intercalate ", " xs ++ "]"

/-- Python `repr` of a dict, given already-rendered keys and values. -/
def pyDictRepr (pairs : List (String × String)) : String :=
  "\x7b" ++ String.intercalate ", " (pairs.map (fun p => p.1 ++ ": " ++ p.2)) ++ "\x7d"

/-- Python truthiness of an optional string: `None` and `""` are falsy. -/
def pyTruthy : Option String → Bool
  | none => false
  | some s => !(s == "")

/-- Column kind as classified by `select_dtypes` in the source: numeric
    (`include=['number']`), categorical (`include=['object', 'category']`),
    or other. -/
inductive ColKind
  | numeric
  | categorical
  | other
deriving DecidableEq

/-- Classify a pandas dtype string the way `select_dtypes` partitions the
    columns in the source (lines 150-151). -/
def kindOfDtype (d : String) : ColKind :=
  if d = "int64" ∨ d = "float64" ∨ d = "int32" ∨ d = "float32" ∨ d = "int16" ∨ d = "int8"
    then ColKind.numeric
  else if d = "object" ∨ d = "category" then ColKind.categorical
  else ColKind.other

/-- The canonical table produced by a successful CSV/Excel parse.
    `columns` is `list(df.columns)`; `dtypes` is the column → dtype-string
    map (`df.dtypes.astype(str).to_dict()`) in column order; `rows` holds,
    per row, the column → rendered-cell-value pairs underlying
    `to_dict(orient='records')`; `nullCounts` is `df.isnull().sum().to_dict()`. -/
structure Table where
  columns : List String
  dtypes : List (String × String)
  rows : List (List (String × String))
  nullCounts : List (String × Nat)
deriving DecidableEq

/-- `data_frame.select_dtypes(include=['number']).columns.tolist()` (line 150). -/
def numeric_cols (t : Table) : List String :=
  (t.dtypes.filter (fun p => decide (kindOfDtype p.2 = ColKind.numeric))).map Prod.fst

/-- `data_frame.select_dtypes(include=['object', 'category']).columns.tolist()` (line 151). -/
def cat_cols (t : Table) : List String :=
  (t.dtypes.filter (fun p => decide (kindOfDtype p.2 = ColKind.categorical))).map Prod.fst

/-- The options offered by the "Color by (optional)" selectbox (line 162):
    `[None] + cat_cols`. -/
def colorOptions (t : Table) : List (Option String) :=
  none :: (cat_cols t).map some

/-- The options offered by the "Facet by (optional)" selectbox (line 163):
    `[None] + cat_cols`. -/
def facetOptions (t : Table) : List (Option String) :=
  none :: (cat_cols t).map some

/-- The five entries of the visualization-type selectbox (lines 153-156). -/
inductive PlotType
  | histogram
  | boxPlot
  | scatter
  | bar
  | line
deriving DecidableEq

/-- The arguments actually passed to the charting engine (`px.*` call):
    which constructor ran and which x/y/color/facet values it received. -/
structure ChartCall where
  kind : PlotType
  x : String
  y : Option String
  color : Option String
  facet : Option String
deriving DecidableEq

/-- The `fig = ...` dispatch of the Generate Visualization branch
    (lines 167-177).  `none` models `fig` remaining `None`.
    Histogram: `px.histogram(df, x, color, facet_col)` — no `y`.
    Box Plot: `px.box(df, x, y, color)` — no facet.
    Scatter/Line: guarded by `and y_axis` (Python truthiness).
    Bar: `y=y_axis if y_axis else None`, no facet. -/
def visFig (plot : PlotType) (x : String) (y color facet : Option String) : Option ChartCall :=
  match plot with
  | PlotType.histogram => some ⟨PlotType.histogram, x, none, color, facet⟩
  | PlotType.boxPlot => some ⟨PlotType.boxPlot, x, y, color, none⟩
  | PlotType.scatter =>
      if pyTruthy y then some ⟨PlotType.scatter, x, y, color, none⟩ else none
  | PlotType.bar => some ⟨PlotType.bar, x, (if pyTruthy y then y else none), color, none⟩
  | PlotType.line =>
      if pyTruthy y then some ⟨PlotType.line, x, y, color, none⟩ else none

/-- Outcome of clicking "Generate Visualization" (lines 179-182): the chart
    is shown when `fig` is set, otherwise the warning
    "Could not generate the selected visualization with current parameters". -/
inductive VisOutcome
  | chart (c : ChartCall)
  | warning
deriving DecidableEq

/-- Lines 165-182: build `fig` and either display it or warn. -/
def generateVisualization (plot : PlotType) (x : String) (y color facet : Option String) :
    VisOutcome :=
  match visFig plot x y color facet with
  | some c => VisOutcome.chart c
  | none => VisOutcome.warning

/-- Behaviour of the completion service on one call: either the client
    raises, or it returns a response carrying the contents of its
    `choices` list (`[]` models both a missing and an empty `choices`). -/
inductive LlmResponse
  | raises (msg : String)
  | ok (choices : List String)

/-- What `call_llama2` produces: the returned value (`none` models Python
    `None`) and whether `st.error` was invoked. -/
structure LlmResult where
  result : Option String
  errorShown : Bool
deriving DecidableEq

/-- `call_llama2` (lines 39-58): on an exception, show the error and return
    `None`; with a nonempty `choices`, return the first choice's content;
    otherwise return `"No response from AI."`. -/
def call_llama2 (r : LlmResponse) : LlmResult :=
  match r with
  | LlmResponse.raises _ => ⟨none, true⟩
  | LlmResponse.ok [] => ⟨some "No response from AI.", false⟩
  | LlmResponse.ok (c :: _) => ⟨some c, false⟩

/-- A PDF as seen by `read_pdf`: either `pdfplumber.open` (or extraction)
    raises, or it yields pages whose `extract_text()` results are given
    (`none` models `extract_text()` returning `None`). -/
inductive PdfFile
  | raises (msg : String)
  | pages (ps : List (Option String))

/-- The generator filter in `read_pdf`:
    `page.extract_text() for page in pdf.pages if page.extract_text()` —
    pages whose extracted text is `None` or `""` (falsy) are dropped. -/
def extractedTexts (ps : List (Option String)) : List String :=
  ps.filterMap (fun o =>
    match o with
    | some s => if s = "" then none else some s
    | none => none)

/-- What `read_pdf` produces: the returned value and whether `st.error` ran. -/
structure PdfReadResult where
  text : Option String
  errorShown : Bool

/-- `read_pdf` (lines 60-67): join the truthy page texts with `"\n"`;
    on an exception, show the error and return `None`. -/
def read_pdf : PdfFile → PdfReadResult
  | PdfFile.raises _ => ⟨none, true⟩
  | PdfFile.pages ps => ⟨some (String.intercalate "\n" (extractedTexts ps)), false⟩

/-- Line 89: the text placed in the "Extracted PDF Content" expander —
    `pdf_text[:5000] + ("..." if len(pdf_text) > 5000 else "")`. -/
def displayShown (s : String) : String :=
  pySlice s 5000 ++ (if 5000 < s.length then "..." else "")

/-- `analysis_prompt` (lines 93-98), with `pdf_text[:15000]` embedded after
    the literal template text. -/
def analysis_prompt (pdf_text : String) : String :=
  "Please analyze this document and provide:\n                        1. A concise summary of key points\n                        2. Main topics covered\n                        3. Any notable patterns or insights\n\n                        Document content:\n" ++ pySlice pdf_text 15000

/-- Terminal state of the PDF branch (lines 85-103) for one upload. -/
inductive PdfOutcome
  | errorOnly
  | contentShown (display : String)
  | silentSkip
deriving DecidableEq

/-- Lines 85-103: `pdf_text = read_pdf(...)`; `if pdf_text:` shows the
    (possibly truncated) content and offers analysis; a `None` result means
    `read_pdf` already reported the error; an empty string is falsy, so the
    whole block is skipped with nothing shown and no error. -/
def handlePdfUpload (f : PdfFile) : PdfOutcome :=
  match (read_pdf f).text with
  | none => PdfOutcome.errorOnly
  | some txt =>
      if txt = "" then PdfOutcome.silentSkip else PdfOutcome.contentShown (displayShown txt)

/-- The statements of the profile-report `try` block (lines 125-141) that
    follow the creation of the named temporary file, in program order:
    `profile.to_file`, reading the HTML back, the inline `components.html`
    display, re-opening the file for the download payload, the
    `st.download_button` call, and finally `os.unlink`. -/
inductive PStep
  | toFile
  | readBack
  | showInline
  | readForDownload
  | offerDownload
  | unlink
deriving DecidableEq, BEq

/-- The `try`-block statements in source order; `os.unlink` is the last
    statement, with no `finally` clause. -/
def profileSteps : List PStep :=
  [PStep.toFile, PStep.readBack, PStep.showInline, PStep.readForDownload,
   PStep.offerDownload, PStep.unlink]

/-- Run a `try` block: execute statements in order; the first one that
    raises aborts the rest and transfers to the `except` handler.  Returns
    the statements that completed and whether an exception was raised. -/
def runTry (fails : PStep → Bool) : List PStep → List PStep × Bool
  | [] => ([], false)
  | s :: rest =>
      if fails s then ([], true)
      else
        let r := runTry fails rest
        (s :: r.1, r.2)

/-- Result of the Generate Full Profile Report branch: which statements
    completed and whether the `except` handler showed an error. -/
structure ProfileRun where
  executed : List PStep
  errorShown : Bool

/-- Lines 122-143: the whole branch is one `try`/`except` whose handler
    shows "Profile generation failed". -/
def profileReportBranch (fails : PStep → Bool) : ProfileRun :=
  let r := runTry fails profileSteps
  ⟨r.1, r.2⟩

/-- The temporary HTML file is deleted exactly when `os.unlink` ran. -/
def tmpDeleted (fails : PStep → Bool) : Bool :=
  (profileReportBranch fails).executed.contains PStep.unlink

/-- `repr` of the column-name list `list(df.columns)` / `context['columns']`. -/
def columnsRepr (t : Table) : String :=
  pyListRepr (t.columns.map pyStrRepr)

/-- `repr` of `context['dtypes']` = `df.dtypes.astype(str).to_dict()`. -/
def dtypesRepr (t : Table) : String :=
  pyDictRepr (t.dtypes.map (fun p => (pyStrRepr p.1, pyStrRepr p.2)))

/-- `repr` of `df.head(3).to_dict(orient='records')` — exactly the first
    three rows, each rendered as a column → value dict. -/
def sampleRepr (t : Table) : String :=
  pyListRepr ((t.rows.take 3).map (fun r => pyDictRepr (r.map (fun c => (pyStrRepr c.1, c.2)))))

/-- `repr` of `context['null_counts']` = `df.isnull().sum().to_dict()`. -/
def nullCountsRepr (t : Table) : String :=
  pyDictRepr (t.nullCounts.map (fun p => (pyStrRepr p.1, toString p.2)))

/-- `repr` of `data_frame.shape`. -/
def shapeRepr (t : Table) : String :=
  "(" ++ toString t.rows.length ++ ", " ++ toString t.columns.length ++ ")"

/-- `eda_prompt` (lines 195-213): the f-string with `data_frame.shape`,
    `list(data_frame.columns)` and `data_frame.head(3).to_dict(orient='records')`
    interpolated.  The 20- and 23-space runs are the literal indentation of
    the triple-quoted template. -/
def eda_prompt (t : Table) : String :=
  "Analyze this dataset and provide a structured report:\n                    \n                    Dataset Overview:\n                    - Shape: " ++ shapeRepr t ++ "\n                    - Columns: " ++ columnsRepr t ++ "\n                    - Sample Rows: " ++ sampleRepr t ++ "\n                    \n                    Please provide:\n                    1. Data Quality Assessment (missing values, duplicates)\n                    2. Statistical Summary (for numeric columns)\n                    3. Interesting Patterns/Observations\n                    4. Recommendations for:\n                       - Data Cleaning\n                       - Further Analysis\n                       - Potential Visualizations\n                    \n                    Keep the response concise and structured with clear headings."

/-- The opening of the Qa template up to and including `"Question: "`
    (line 234 through the start of the interpolated question). -/
def qaIntro : String :=
  "You are a data analyst assistant. Answer the following question about the dataset:\n                    \n                    Question: "

/-- The blank-line separator between sections of the Qa template: a newline,
    the 20-space indented empty line, a newline and the next line's indent. -/
def qaSep : String :=
  "\n                    \n                    "

/-- The dataset-context block of the Qa template (lines 238-242): columns,
    dtypes, sample rows and null counts, in that order. -/
def qaDatasetContextBlock (t : Table) : String :=
  "Dataset Context:\n                    - Columns: " ++ columnsRepr t ++ "\n                    - Data Types: " ++ dtypesRepr t ++ "\n                    - Sample Data: " ++ sampleRepr t ++ "\n                    - Null Values Count: " ++ nullCountsRepr t

/-- The explicit request list of the Qa template (lines 244-248). -/
def qaRequestList : String :=
  "Provide:\n                    1. A clear answer to the question\n                    2. Relevant statistics if applicable\n                    3. Any caveats or limitations in the data\n                    4. Suggestions for further analysis if relevant"

/-- The closing instruction of the Qa template (line 250). -/
def qaCannotAnswerInstruction : String :=
  "If the question cannot be answered with the available data, explain why."

/-- `qa_prompt` (lines 234-250).  The f-string is the concatenation of the
    pieces above with the user question and the context interpolations; the
    section texts are verbatim and contiguous, so this concatenation is
    character-identical to the source template. -/
def qa_prompt (question : String) (t : Table) : String :=
  qaIntro ++ question ++ qaSep ++ qaDatasetContextBlock t ++ qaSep ++ qaRequestList ++ qaSep ++ qaCannotAnswerInstruction

/-- Observable effects of one pass through the Ask Questions tab
    (lines 222-257): which prompt strings were built, how many LLM calls
    were issued, the answer displayed (if any), and whether an error was
    shown. -/
structure QaTabRun where
  promptsBuilt : List String
  llmCalls : Nat
  answerShown : Option String
  errorShown : Bool
deriving DecidableEq

/-- Lines 223-257: `if user_question and st.button("Get Answer"):` guards
    the whole branch — with a falsy (empty) question nothing below it runs.
    Inside, the prompt is built, `call_llama2` is invoked once, and a falsy
    answer (`None` or `""`) produces the "Failed to" error message. -/
def runQaTab (t : Table) (question : String) (clicked : Bool) (resp : LlmResponse) : QaTabRun :=
  if (!(question == "")) && clicked then
    let p := qa_prompt question t
    let r := call_llama2 resp
    match r.result with
    | some ans => if ans = "" then ⟨[p], 1, none, true⟩ else ⟨[p], 1, some ans, r.errorShown⟩
    | none => ⟨[p], 1, none, true⟩
  else ⟨[], 0, none, false⟩

/-- All start positions at which `pat` occurs in `s`, via a single
    left-to-right scan (`i` is the index of the current suffix). -/
def occAux (pat : List Char) : List Char → Nat → List Nat
  | [], i => if pat.isPrefixOf [] then [i] else []
  | c :: rest, i =>
      (if pat.isPrefixOf (c :: rest) then [i] else []) ++ occAux pat rest (i + 1)

/-- Start positions of every occurrence of `pat` in `s`. -/
def occIdxs (pat s : List Char) : List Nat := occAux pat s 0

/-- `beforeIn a b s` holds when some occurrence of `a` in `s` ends at or
    before the start of some occurrence of `b`: "`s` contains `a` followed
    by `b`". -/
def beforeIn (a b s : List Char) : Bool :=
  (occIdxs a s).any (fun i => (occIdxs b s).any (fun j => a.length + i ≤ j))

/-- A one-column, one-row table used as a concrete instance. -/
def T0 : Table :=
  ⟨["a"], [("a", "int64")], [[("a", "1")]], [("a", 0)]⟩

/-- A concrete user question. -/
def q0 : String := "How many rows does the dataset have?"

/-- A table with a numeric and a categorical column. -/
def T3 : Table :=
  ⟨["amount", "region"], [("amount", "int64"), ("region", "object")],
   [[("amount", "10"), ("region", "\x27north\x27")]], [("amount", 0), ("region", 0)]⟩

/-- Four rows; the first three agree with `T8b`. -/
def T8a : Table :=
  ⟨["a"], [("a", "int64")],
   [[("a", "1")], [("a", "2")], [("a", "3")], [("a", "4")]], [("a", 0)]⟩

/-- Same as `T8a` except in the fourth row. -/
def T8b : Table :=
  ⟨["a"], [("a", "int64")],
   [[("a", "1")], [("a", "2")], [("a", "3")], [("a", "99")]], [("a", 0)]⟩

/-- C1 (counterexample): in the composed Qa prompt for `T0` and `q0`, both
    the dataset context block and the literal question occur, but no
    occurrence of the context block is followed by the question — the claim
    "context block followed by the literal user question" is false: the
    question precedes the context block. -/
theorem c1_counterexample :
    occIdxs (qaDatasetContextBlock T0).data (qa_prompt q0 T0).data ≠ [] ∧
    occIdxs q0.data (qa_prompt q0 T0).data ≠ [] ∧
    beforeIn (qaDatasetContextBlock T0).data q0.data (qa_prompt q0 T0).data = false ∧
    beforeIn q0.data (qaDatasetContextBlock T0).data (qa_prompt q0 T0).data = true := by
  decide

/-- C1 (amended): every composed Qa prompt is the literal user question
    first, followed by the dataset context block (columns, dtypes, sample
    rows, null counts), followed by the explicit request list, followed by
    the instruction to explain when the data cannot answer the question, in
    that order. -/
theorem c1_question_then_context_then_requests (q : String) (t : Table) :
    ∃ u v w z : String,
      qa_prompt q t =
        u ++ q ++ v ++ qaDatasetContextBlock t ++ w ++ qaRequestList ++ z ++
          qaCannotAnswerInstruction :=
  ⟨qaIntro, qaSep, qaSep, qaSep, rfl⟩

/-- C2 (counterexample): a PDF whose pages yield no truthy text (one page
    extracts `None`, one extracts `""`) produces an empty concatenation, yet
    the upload branch ends in the silent-skip state — no error is reported,
    contradicting "fails with ExtractionError ... never a silent no-op". -/
theorem c2_counterexample :
    extractedTexts [none, some ""] = [] ∧
    handlePdfUpload (PdfFile.pages [none, some ""]) = PdfOutcome.silentSkip ∧
    handlePdfUpload (PdfFile.pages [none, some ""]) ≠ PdfOutcome.errorOnly := by
  decide

/-- C2 (amended): whenever the page-by-page extraction yields no truthy page
    text, the concatenated result is empty and the PDF branch silently does
    nothing — no error is shown and no content is displayed; an error is
    reported only when the extraction library itself raises. -/
theorem c2_empty_extraction_is_silent (ps : List (Option String)) (m : String)
    (h : extractedTexts ps = []) :
    handlePdfUpload (PdfFile.pages ps) = PdfOutcome.silentSkip ∧
    (read_pdf (PdfFile.pages ps)).errorShown = false ∧
    handlePdfUpload (PdfFile.raises m) = PdfOutcome.errorOnly := by
  refine ⟨?_, rfl, rfl⟩
  simp [handlePdfUpload, read_pdf, h, String.intercalate]

/-- C2 (witness): the amended theorem applied to a one-page PDF whose page
    extracts nothing. -/
theorem c2_witness :
    handlePdfUpload (PdfFile.pages [none]) = PdfOutcome.silentSkip :=
  (c2_empty_extraction_is_silent [none] "x" rfl).1

/-- C3 (counterexample): `"amount"` is a column of `T3`, but it is numeric,
    so neither the color nor the facet selectbox offers it — the claim that
    any existing column may be supplied as color/facet is false. -/
theorem c3_counterexample :
    "amount" ∈ T3.columns ∧
    some "amount" ∉ colorOptions T3 ∧
    some "amount" ∉ facetOptions T3 := by
  decide

/-- C3 (amended): the color and facet choices are restricted to `None` plus
    the categorical-kind columns; a column can be supplied as color or facet
    exactly when `select_dtypes(['object', 'category'])` classifies it as
    categorical — numeric and other-kind columns cannot be chosen. -/
theorem c3_color_facet_categorical_only (t : Table) (c : String) :
    (some c ∈ colorOptions t ↔ c ∈ cat_cols t) ∧
    (some c ∈ facetOptions t ↔ c ∈ cat_cols t) := by
  constructor <;> simp [colorOptions, facetOptions]

/-- C4: with `y` absent, Scatter and Line produce no figure and end in the
    warning state ("Could not generate the selected visualization with
    current parameters"), while Bar and Histogram still call the charting
    engine with `y=None` — a count-based chart, an explicit terminal state
    rather than an error. -/
theorem c4_y_absent_dispatch (x : String) (color facet : Option String) :
    generateVisualization PlotType.scatter x none color facet = VisOutcome.warning ∧
    generateVisualization PlotType.line x none color facet = VisOutcome.warning ∧
    generateVisualization PlotType.bar x none color facet =
      VisOutcome.chart ⟨PlotType.bar, x, none, color, none⟩ ∧
    generateVisualization PlotType.histogram x none color facet =
      VisOutcome.chart ⟨PlotType.histogram, x, none, color, facet⟩ :=
  ⟨rfl, rfl, rfl, rfl⟩

/-- C5 (counterexample): if reading the generated HTML back fails, the
    `except` handler reports the error but `os.unlink` never runs — the
    temporary file backing the report is not deleted, contradicting
    "cleanup guaranteed even when a downstream step fails partway". -/
theorem c5_counterexample :
    tmpDeleted (fun s => decide (s = PStep.readBack)) = false ∧
    (profileReportBranch (fun s => decide (s = PStep.readBack))).errorShown = true := by
  decide

/-- C5 (amended): the temporary HTML file is deleted exactly when every
    statement of the branch (report write, read-back, inline display,
    download read, download offer, and the unlink itself) completes without
    raising; any failure aborts to the error handler with the file left in
    place. -/
theorem c5_cleanup_only_on_success (fails : PStep → Bool) :
    tmpDeleted fails = profileSteps.all (fun s => !fails s) ∧
    (profileReportBranch fails).errorShown = profileSteps.any (fun s => fails s) := by
  cases h0 : fails PStep.toFile <;> cases h1 : fails PStep.readBack <;>
    cases h2 : fails PStep.showInline <;> cases h3 : fails PStep.readForDownload <;>
    cases h4 : fails PStep.offerDownload <;> cases h5 : fails PStep.unlink <;>
    simp [tmpDeleted, profileReportBranch, runTry, profileSteps, h0, h1, h2, h3, h4, h5] <;>
    decide

/-- C6: the text shown in the PDF expander is the first 5000 characters
    with `"..."` appended exactly when truncation happened (the flag is
    present iff the text exceeded the display cap), while the document
    text embedded in `analysis_prompt` is independently capped at 15000
    characters: the prompt depends only on the first 15000 characters
    (truncation before embedding) and the embedded slice never exceeds
    15000 characters. -/
theorem c6_display_and_prompt_caps (s : String) :
    displayShown s = pySlice s 5000 ++ (if 5000 < s.length then "..." else "") ∧
    (5000 < s.length ↔ displayShown s = pySlice s 5000 ++ "...") ∧
    analysis_prompt s = analysis_prompt (pySlice s 15000) ∧
    (pySlice s 15000).length ≤ 15000 := by
  have hp : pySlice (pySlice s 15000) 15000 = pySlice s 15000 :=
    congrArg String.mk (by simp [pySlice, List.take_take])
  refine ⟨rfl, ⟨?_, ?_⟩, ?_, ?_⟩
  · intro h
    simp [displayShown, if_pos h]
  · intro h
    by_contra hn
    have hd : displayShown s = pySlice s 5000 ++ "" := by
      simp [displayShown, if_neg hn]
    rw [hd] at h
    have hlen := congrArg String.length h
    simp [String.length_append] at hlen
    exact absurd hlen (by decide)
  · simp [analysis_prompt, hp]
  · have hq : (pySlice s 15000).length = (s.data.take 15000).length := rfl
    rw [hq, List.length_take]
    omega

/-- C7: with an empty (falsy) user question, the guarded Ask Questions
    branch does not run at all — no prompt string is built, no LLM call is
    issued, nothing is displayed and no error is shown, regardless of the
    button state or what the LLM would have answered. -/
theorem c7_empty_question_rejected (t : Table) (clicked : Bool) (resp : LlmResponse) :
    runQaTab t "" clicked resp = ⟨[], 0, none, false⟩ :=
  rfl

/-- C8: prompt composition is deterministic and uses exactly the first
    three rows: two tables agreeing on columns, dtypes, null counts, row
    count and their first three rows (later rows may differ) yield
    character-identical EDA and Qa prompts; in particular composing the
    same intent twice from the same table yields the same string. -/
theorem c8_prompt_determinism (t₁ t₂ : Table) (q : String)
    (hc : t₁.columns = t₂.columns) (hd : t₁.dtypes = t₂.dtypes)
    (hn : t₁.nullCounts = t₂.nullCounts) (hr : t₁.rows.take 3 = t₂.rows.take 3)
    (hl : t₁.rows.length = t₂.rows.length) :
    eda_prompt t₁ = eda_prompt t₂ ∧ qa_prompt q t₁ = qa_prompt q t₂ := by
  constructor <;>
    simp only [eda_prompt, qa_prompt, qaDatasetContextBlock, shapeRepr, columnsRepr,
      dtypesRepr, sampleRepr, nullCountsRepr, hc, hd, hn, hr, hl]

/-- C8 (witness): `T8a` and `T8b` differ in their fourth row only, and both
    prompts come out character-identical. -/
theorem c8_witness :
    eda_prompt T8a = eda_prompt T8b ∧ qa_prompt "q" T8a = qa_prompt "q" T8b :=
  c8_prompt_determinism T8a T8b "q" rfl rfl rfl rfl rfl

/-- C9: an exception from the completion client is surfaced (`st.error`)
    and turned into the non-crashing `None` result; a response with no
    choices yields the non-fatal string result `"No response from AI."`
    with no error; a response with choices yields the first choice. -/
theorem c9_llm_failures_nonfatal (m c : String) (cs : List String) :
    call_llama2 (LlmResponse.raises m) = ⟨none, true⟩ ∧
    call_llama2 (LlmResponse.ok []) = ⟨some "No response from AI.", false⟩ ∧
    call_llama2 (LlmResponse.ok (c :: cs)) = ⟨some c, false⟩ :=
  ⟨rfl, rfl, rfl⟩

/-- C10: the user-selected facet column reaches the charting engine only in
    the Histogram call (which also never passes `y`); the Box Plot and Bar
    calls and any Scatter or Line call that produces a figure pass no facet
    argument, silently ignoring the selection. -/
theorem c10_facet_only_for_histogram (x : String) (y color facet : Option String) :
    visFig PlotType.histogram x y color facet =
      some ⟨PlotType.histogram, x, none, color, facet⟩ ∧
    visFig PlotType.boxPlot x y color facet = some ⟨PlotType.boxPlot, x, y, color, none⟩ ∧
    (∀ c, visFig PlotType.scatter x y color facet = some c → c.facet = none) ∧
    (∀ c, visFig PlotType.bar x y color facet = some c → c.facet = none) ∧
    (∀ c, visFig PlotType.line x y color facet = some c → c.facet = none) := by
  refine ⟨rfl, rfl, ?_, ?_, ?_⟩ <;> intro c h <;> simp only [visFig] at h
  · split at h
    · cases h; rfl
    · cases h
  · cases h; rfl
  · split at h
    · cases h; rfl
    · cases h

/-- C10 (witness): the theorem applied at concrete arguments — the
    Histogram call forwards the chosen facet, and a Scatter figure built
    with a facet selected carries no facet argument. -/
theorem c10_witness :
    visFig PlotType.histogram "a" (some "b") (some "c") (some "f") =
      some ⟨PlotType.histogram, "a", none, some "c", some "f"⟩ ∧
    (⟨PlotType.scatter, "a", some "b", some "c", none⟩ : ChartCall).facet = none :=
  ⟨(c10_facet_only_for_histogram "a" (some "b") (some "c") (some "f")).1,
   (c10_facet_only_for_histogram "a" (some "b") (some "c") (some "f")).2.2.1
     ⟨PlotType.scatter, "a", some "b", some "c", none⟩ rfl⟩
